import Mathlib

/-!
Verification of the real-time event distribution engine and the on-demand
video retrieval pipeline of the dataq-analyzer-backend repository.

Numbers carried by MQTT/WebSocket JSON payloads are modelled as exact
rationals (`ℚ`); a JSON field that may be absent (`undefined` in the source)
is modelled as an `Option`.  Comparisons the source performs on possibly
absent numbers follow JavaScript semantics: a comparison with `undefined`
is false (NaN propagation), and `undefined`/`0` are falsy.
-/

namespace DataQ

/-- Models the JavaScript comparison `x < c` where `x` may be `undefined`:
`undefined < c` evaluates to false. -/
def jsLt (x : Option ℚ) (c : ℚ) : Bool :=
  match x with
  | none => false
  | some v => decide (v < c)

/-- Models JavaScript truthiness of a numeric field: `undefined` (absent)
and `0` are falsy, every other number is truthy. -/
def jsFalsy (x : Option ℚ) : Bool :=
  match x with
  | none => true
  | some v => decide (v = 0)

/-- Helper for `strIncludes`: does `pat` occur as a contiguous run in `s`? -/
def charListIncludes (pat s : List Char) : Bool :=
  s.tails.any (fun t => pat.isPrefixOf t)

/-- Models JavaScript `s.includes(pat)` (substring containment). -/
def strIncludes (s pat : String) : Bool :=
  charListIncludes pat.toList s.toList

/-- A decoded DataQ path event, with the original MQTT property names
(`serial`, `class`, `age`, `dx`, `dy`, `dwell`); `cls` stands for the
source field named `class` (a Lean keyword).  `cameraId` is the optional
database reference consulted by the broadcaster's authorization fallback. -/
structure PathData where
  serial : String
  cls : String
  age : Option ℚ
  dx : Option ℚ
  dy : Option ℚ
  dwell : Option ℚ
  cameraId : Option String
  deriving Repr, DecidableEq

/-- Per-device ingestion filter (the `filters` subdocument of a Camera
record); each field may be unset. -/
structure CameraFilters where
  objectTypes : Option (List String)
  minAge : Option ℚ
  minDistance : Option ℚ
  deriving Repr, DecidableEq

/-- Default allowed-class list used by `shouldSavePath` when the device
filter does not configure `objectTypes` (src/mqtt/client.js line 162). -/
def defaultObjectTypes : List String :=
  ["Human", "Car", "Truck", "Bus", "Bike", "LicensePlate", "Head", "Bag",
   "Vehicle", "Animal", "Other"]

/-- Exact model of the ingestion displacement test
`Math.sqrt(dx*dx + dy*dy) / 1414.21 * 100 < minDistance`
(src/mqtt/client.js lines 191-194).  With `dx` or `dy` absent the
JavaScript expression is NaN and the comparison is false.  For present
values the square root is eliminated exactly: with `1414.21 = 141421/100`,
`√(dx²+dy²) / 1414.21 * 100 < m  ↔  0 < m ∧ (dx²+dy²)·10⁸ < m²·141421²`. -/
def displacementPercentLt (dx dy : Option ℚ) (m : ℚ) : Bool :=
  match dx, dy with
  | some a, some b => decide (0 < m ∧ (a ^ 2 + b ^ 2) * 10 ^ 8 < m ^ 2 * 141421 ^ 2)
  | _, _ => false

/-- Embedding of `shouldSavePath(pathData, filters)` from
src/mqtt/client.js lines 160-207: the Ingestion Filter deciding whether a
path event is persisted and broadcast.  Note that in the source
`filters?.objectTypes || defaultObjectTypes` keeps a configured empty
array (an empty array is truthy in JavaScript), and the class test is
guarded by `objectTypes.length > 0`. -/
def shouldSavePath (pathData : PathData) (filters : Option CameraFilters) : Bool :=
  let objectTypes := (filters.bind (fun f => f.objectTypes)).getD defaultObjectTypes
  let minAge := (filters.bind (fun f => f.minAge)).getD 2
  let minDistance := (filters.bind (fun f => f.minDistance)).getD 20
  if objectTypes.length > 0 && !(objectTypes.contains pathData.cls) then false
  else if jsLt pathData.age minAge then false
  else if displacementPercentLt pathData.dx pathData.dy minDistance then false
  else true

/-- Client-side subscription filters carried by a `subscribe` message
(`filters{classes[], minAge, minDistance, minDwell}`); each field may be
absent. -/
structure ClientFilters where
  classes : Option (List String)
  minAge : Option ℚ
  minDistance : Option ℚ
  minDwell : Option ℚ
  deriving Repr, DecidableEq

/-- Exact model of the broadcaster distance test
`Math.sqrt(dx*dx + dy*dy) < minDistance` on present values
(src/websocket/filters.js): `√(a²+b²) < m  ↔  0 < m ∧ a²+b² < m²`. -/
def rawDistanceLt (a b m : ℚ) : Bool :=
  decide (0 < m ∧ a ^ 2 + b ^ 2 < m ^ 2)

/-- Embedding of `matchesFilters(pathEvent, filters)` from
src/websocket/filters.js: the client-side filter of the Broadcast
Dispatcher.  The source first returns true when the filters object has no
keys; with all four fields absent every check below is skipped, which
yields the same value, so that shortcut needs no separate case.  Each
threshold check first rejects a falsy (`undefined` or `0`) event field. -/
def matchesFilters (pathEvent : PathData) (filters : ClientFilters) : Bool :=
  (match filters.classes with
   | some cs => if cs.length > 0 then cs.contains pathEvent.cls else true
   | none => true) &&
  (match filters.minAge with
   | some m => !(jsFalsy pathEvent.age || jsLt pathEvent.age m)
   | none => true) &&
  (match filters.minDistance with
   | some m =>
     match pathEvent.dx, pathEvent.dy with
     | some a, some b =>
       if a = 0 then false
       else if b = 0 then false
       else !(rawDistanceLt a b m)
     | _, _ => false
   | none => true) &&
  (match filters.minDwell with
   | some m => !(jsFalsy pathEvent.dwell || jsLt pathEvent.dwell m)
   | none => true)

/-- An authenticated identity (the `user` object attached to a
connection): role (`"admin"` is elevated, anything else standard) and the
standard role's list of authorized camera database ids. -/
structure Identity where
  userId : String
  role : String
  authorizedCameras : List String
  deriving Repr, DecidableEq

/-- A connection's subscription state (`connection.subscriptions` from
src/websocket/manager.js): camera serial numbers (empty means "all
authorized") plus the client-side filters. -/
structure Subscription where
  cameras : List String
  filters : ClientFilters
  deriving Repr, DecidableEq

/-- A live path-events connection as tracked by the Connection Registry:
the transport readiness (`ws.readyState`, 1 = OPEN), the authenticated
user, and the subscription state. -/
structure Connection where
  readyState : Nat
  user : Identity
  subscriptions : Subscription
  deriving Repr, DecidableEq

/-- The broadcaster's authorization fallback for an empty camera set
(src/websocket/broadcaster.js lines 84-92): a standard user passes iff
some authorized camera id equals the event's `cameraId`; with the event's
`cameraId` absent the JavaScript comparison with `undefined` fails for
every id. -/
def isAuthorizedForEvent (user : Identity) (pathEvent : PathData) : Bool :=
  match pathEvent.cameraId with
  | some cid => user.authorizedCameras.contains cid
  | none => false

/-- Embedding of `shouldSendToClient(connection, pathEvent)` from
src/websocket/broadcaster.js lines 62-101: the Broadcast Dispatcher's
per-connection accept/reject decision. -/
def shouldSendToClient (connection : Connection) (pathEvent : PathData) : Bool :=
  if connection.readyState ≠ 1 then false
  else if connection.subscriptions.cameras.length > 0 then
    if !(connection.subscriptions.cameras.contains pathEvent.serial) then false
    else matchesFilters pathEvent connection.subscriptions.filters
  else
    if connection.user.role ≠ "admin" && !(isAuthorizedForEvent connection.user pathEvent) then
      false
    else matchesFilters pathEvent connection.subscriptions.filters

/-- A camera record of the device directory, with the fields the
WebSocket subsystem reads: database id (`_id`), serial number and the
enabled flag. -/
structure Camera where
  mongoId : String
  serialNumber : String
  enabled : Bool
  deriving Repr, DecidableEq

/-- Embedding of the authorized-camera resolution of `handleSubscribe`
(src/websocket/handlers.js lines 128-171), with the device directory
passed explicitly as the list of camera records the Mongo queries range
over.  Empty request: admin gets every enabled camera, a standard user
gets the enabled cameras whose `_id` is in their authorized list.
Non-empty request: the same sets intersected with the requested serial
numbers. -/
def handleSubscribeCameras (db : List Camera) (user : Identity)
    (requestedCameras : List String) : List String :=
  if requestedCameras.length = 0 then
    if user.role = "admin" then
      (db.filter (fun c => c.enabled)).map (fun c => c.serialNumber)
    else
      (db.filter (fun c =>
        user.authorizedCameras.contains c.mongoId && c.enabled)).map
        (fun c => c.serialNumber)
  else
    if user.role = "admin" then
      (db.filter (fun c =>
        requestedCameras.contains c.serialNumber && c.enabled)).map
        (fun c => c.serialNumber)
    else
      (db.filter (fun c =>
        user.authorizedCameras.contains c.mongoId &&
          requestedCameras.contains c.serialNumber && c.enabled)).map
        (fun c => c.serialNumber)

/-- A JSON text frame sent to a path-events client. -/
inductive WsOutMessage where
  | subscribed (cameras : List String)
  | errorMsg (text : String) (code : String)
  deriving Repr, DecidableEq

/-- Result of processing one `subscribe` message: the connection's new
subscription state and the frames sent, in order. -/
structure SubscribeOutcome where
  newSubscription : Subscription
  messages : List WsOutMessage
  deriving Repr, DecidableEq

/-- Embedding of `handleSubscribe` (src/websocket/handlers.js lines
117-214) after the connection lookup: resolves the authorized cameras,
stores them as the new subscription, sends `subscribed{cameras}`, and —
when cameras were requested and fewer were authorized — additionally
sends an `error` frame with code `UNAUTHORIZED` listing the requested
cameras that are not in the authorized set. -/
def handleSubscribe (db : List Camera) (user : Identity)
    (requestedCameras : List String) (filters : ClientFilters) : SubscribeOutcome :=
  let authorizedCameras := handleSubscribeCameras db user requestedCameras
  let warnings :=
    if requestedCameras.length > 0 &&
        authorizedCameras.length < requestedCameras.length then
      let unauthorizedCameras :=
        requestedCameras.filter (fun c => !(authorizedCameras.contains c))
      [WsOutMessage.errorMsg
        ("Some cameras were not authorized: " ++
          String.intercalate ", " unauthorizedCameras)
        "UNAUTHORIZED"]
    else []
  { newSubscription := { cameras := authorizedCameras, filters := filters },
    messages := WsOutMessage.subscribed authorizedCameras :: warnings }

/-- Playback defaults of the system configuration consulted by
`getVideoClip` (`config.playback.preTime` / `config.playback.postTime`). -/
structure PlaybackConfig where
  preTime : ℚ
  postTime : ℚ
  deriving Repr, DecidableEq

/-- Embedding of the time-window computation of `getVideoClip`
(src/services/videoService.js lines 52-64), in epoch milliseconds:
`preTime`/`postTime` default from the system configuration (`??`) and
`age` defaults to 0; `startTime = timestamp - (age + preTime)·1000`,
`endTime = timestamp + postTime·1000`. -/
def computeVideoWindow (timestampMs : ℚ) (preTime postTime age : Option ℚ)
    (config : PlaybackConfig) : ℚ × ℚ :=
  let p := preTime.getD config.preTime
  let q := postTime.getD config.postTime
  let a := age.getD 0
  (timestampMs - (a + p) * 1000, timestampMs + q * 1000)

/-- Shape of an axios failure as inspected by the VideoX adapter:
`error.response?.status`, `error.code` and `error.message`. -/
structure AxiosFailure where
  status : Option Nat
  code : Option String
  message : String
  deriving Repr, DecidableEq

/-- Embedding of the catch block of `getVideoFromVideoX`
(src/services/videoService.js lines 262-291): the message of the Error
thrown for a failed VideoX fetch.  Statuses handled inside the
`error.response` branch take precedence; an unhandled status falls
through to the `error.code` checks and then to the generic message. -/
def mapVideoXFailure (e : AxiosFailure) : String :=
  let statusMapped : Option String :=
    match e.status with
    | none => none
    | some s =>
      if s = 404 then some "VIDEO_NOT_FOUND"
      else if s ≥ 500 then some "RECORDING_SERVER_ERROR"
      else if s = 400 then some ("Invalid request: " ++ e.message)
      else if s = 401 || s = 403 then some "AUTHENTICATION_FAILED"
      else none
  match statusMapped with
  | some m => m
  | none =>
    if e.code = some "ECONNREFUSED" then "RECORDING_SERVER_UNREACHABLE"
    else if e.code = some "ETIMEDOUT" then "REQUEST_TIMEOUT"
    else "Failed to fetch video from VideoX: " ++ e.message

/-- Embedding of the control flow of `getVideoFromVideoX`
(src/services/videoService.js lines 107-292) around the disposable
on-disk artifact: the recording-server fetch result is the input; the
temporary input file is written (`writeFile(tempInputFile, ...)`) only
after the whole clip has been buffered, i.e. only on the success path.
The returned boolean records whether the artifact was created. -/
def getVideoFromVideoX (fetch : Except AxiosFailure Unit) :
    Except String Unit × Bool :=
  match fetch with
  | Except.error e => (Except.error (mapVideoXFailure e), false)
  | Except.ok _ => (Except.ok (), true)

/-- Embedding of the error-code mapping of `handleRequestVideo`
(src/websocket/videoHandlers.js lines 382-394): the service error
message is mapped to the client-facing error code. -/
def mapVideoErrorCode (message : String) : String :=
  if message = "VIDEO_NOT_FOUND" then "VIDEO_NOT_FOUND"
  else if message = "RECORDING_SERVER_ERROR" then "RECORDING_SERVER_ERROR"
  else if strIncludes message "not found" then "CAMERA_NOT_FOUND"
  else if strIncludes message "not enabled" then "PLAYBACK_DISABLED"
  else "UNKNOWN_ERROR"

/-- Observable per-connection events of the video WebSocket handler, in
the order they happen. -/
inductive VideoEvent where
  | destroyedStream (sid : Nat)
  | metadataSent (sid : Nat)
  deriving Repr, DecidableEq

/-- Per-connection state of src/websocket/videoHandlers.js: the
`activeStreams` entry for this connection (at most one, it is a `Map`
keyed by connection id), the requests whose `await getVideoClip` is still
pending, the streams whose data handlers are attached and not destroyed,
and the event log. -/
structure VideoConnState where
  activeStream : Option Nat
  pendingFetches : List Nat
  attachedStreams : List Nat
  log : List VideoEvent
  deriving Repr, DecidableEq

/-- Fresh video-connection state: no active stream, nothing pending. -/
def initVideoConn : VideoConnState :=
  { activeStream := none, pendingFetches := [], attachedStreams := [], log := [] }

/-- Embedding of `handleCloseVideo` (src/websocket/videoHandlers.js lines
402-409): destroy the registered stream, if any, and clear the map
entry. -/
def handleCloseVideo (st : VideoConnState) : VideoConnState :=
  match st.activeStream with
  | some old =>
    { st with
      activeStream := none
      attachedStreams := st.attachedStreams.filter (fun t => t ≠ old)
      log := st.log ++ [VideoEvent.destroyedStream old] }
  | none => st

/-- Synchronous opening phase of `handleRequestVideo` (src/websocket/
videoHandlers.js lines 295-320) up to `await getVideoClip`: tear down the
registered stream if the map has one, then start the fetch.  A request
whose fetch is still pending is not registered and hence not torn
down. -/
def requestVideoArrive (sid : Nat) (st : VideoConnState) : VideoConnState :=
  let st1 := handleCloseVideo st
  { st1 with pendingFetches := st1.pendingFetches ++ [sid] }

/-- Continuation of `handleRequestVideo` (src/websocket/videoHandlers.js
lines 321-357) once its `getVideoClip` resolves: register the stream in
`activeStreams` (a plain `Map.set`, overwriting without destroying any
previous entry), send `video_metadata`, and attach the stream's data
handlers. -/
def requestVideoFetchDone (sid : Nat) (st : VideoConnState) : VideoConnState :=
  if st.pendingFetches.contains sid then
    { activeStream := some sid
      pendingFetches := st.pendingFetches.filter (fun t => t ≠ sid)
      attachedStreams := st.attachedStreams ++ [sid]
      log := st.log ++ [VideoEvent.metadataSent sid] }
  else st

/-- One `request_video` processed without interleaving: the synchronous
opening phase followed immediately by the fetch continuation. -/
def handleRequestVideoSeq (sid : Nat) (st : VideoConnState) : VideoConnState :=
  requestVideoFetchDone sid (requestVideoArrive sid st)

/-- Payload of a verified JWT as used by `authenticateWebSocket`. -/
structure TokenPayload where
  payloadId : String
  deriving Repr, DecidableEq

/-- A user record as loaded by `authenticateWebSocket`. -/
structure UserRecord where
  recordId : String
  role : String
  enabled : Bool
  deriving Repr, DecidableEq

/-- Embedding of `authenticateWebSocket` (src/websocket/auth.js):
`token` is the query parameter, `verified` the result of `verifyToken`
(`none` models the `Invalid or expired token` throw of
src/services/authService.js lines 30-36), `lookupUser` the database
lookup of the decoded id.  Returns the user or the thrown error
message. -/
def authenticateWebSocket (token : Option String) (verified : Option TokenPayload)
    (lookupUser : Option UserRecord) : Except String UserRecord :=
  match token with
  | none => Except.error "No token provided"
  | some _ =>
    match verified with
    | none => Except.error "Invalid or expired token"
    | some decoded =>
      if decoded.payloadId = "env-admin" then
        Except.ok { recordId := "env-admin", role := "admin", enabled := true }
      else
        match lookupUser with
        | none => Except.error "User not found"
        | some user =>
          if !user.enabled then Except.error "Account is disabled"
          else Except.ok user

/-- What the HTTP upgrade handler writes on the socket
(src/websocket/server.js lines 26-59). -/
inductive UpgradeResponse where
  | notFound404
  | unauthorized401
  | connected (userId : String)
  deriving Repr, DecidableEq

/-- Embedding of the `upgrade` handler of `createWebSocketServer`
(src/websocket/server.js lines 26-59): an invalid path gets
`HTTP/1.1 404 Not Found`; every authentication failure gets
`HTTP/1.1 401 Unauthorized`; otherwise the upgrade completes. -/
def upgradeResponse (pathname : String) (auth : Except String UserRecord) :
    UpgradeResponse :=
  if pathname ≠ "/ws/paths" && pathname ≠ "/ws/video" then
    UpgradeResponse.notFound404
  else
    match auth with
    | Except.error _ => UpgradeResponse.unauthorized401
    | Except.ok u => UpgradeResponse.connected u.recordId

/-- Scenario event of the spec: `{class:"Human", age:5, dx:300, dy:300}`. -/
def scenarioEvent : PathData :=
  { serial := "B8A44F000001", cls := "Human", age := some 5, dx := some 300,
    dy := some 300, dwell := some 3, cameraId := some "cam-1" }

/-- Scenario device filter of the spec:
`{classes:["Human"], minAge:2, minDistance:20}`. -/
def scenarioFilters : CameraFilters :=
  { objectTypes := some ["Human"], minAge := some 2, minDistance := some 20 }

/-- Device filter with a configured-but-empty allowed-class list. -/
def emptyClassFilters : CameraFilters :=
  { objectTypes := some [], minAge := some 2, minDistance := some 20 }

/-- Client-side filter object with no keys set. -/
def noClientFilters : ClientFilters :=
  { classes := none, minAge := none, minDistance := none, minDwell := none }

/-- Client-side filter with only a minimum raw-pixel distance of 100. -/
def distanceOnlyFilters : ClientFilters :=
  { classes := none, minAge := none, minDistance := some 100, minDwell := none }

/-- An elevated (admin) connection subscribed to "all authorized". -/
def adminConn : Connection :=
  { readyState := 1,
    user := { userId := "admin-1", role := "admin", authorizedCameras := [] },
    subscriptions := { cameras := [], filters := noClientFilters } }

/-- A standard connection with no authorized cameras, subscribed to
"all authorized", with the same subscription state as `adminConn`. -/
def standardConn : Connection :=
  { readyState := 1,
    user := { userId := "user-1", role := "user", authorizedCameras := [] },
    subscriptions := { cameras := [], filters := noClientFilters } }

/-- A three-camera device directory with distinct serial numbers. -/
def directoryABC : List Camera :=
  [{ mongoId := "id-a", serialNumber := "A", enabled := true },
   { mongoId := "id-b", serialNumber := "B", enabled := true },
   { mongoId := "id-c", serialNumber := "C", enabled := true }]

/-- A standard identity authorized for cameras A and B only. -/
def standardUserAB : Identity :=
  { userId := "u-1", role := "user", authorizedCameras := ["id-a", "id-b"] }

/-- An elevated connection subscribed to the single camera A. -/
def adminConnA : Connection :=
  { readyState := 1,
    user := { userId := "admin-1", role := "admin", authorizedCameras := [] },
    subscriptions := { cameras := ["A"], filters := noClientFilters } }

/-- A standard connection subscribed to the single camera A, with the same
subscription state as `adminConnA`. -/
def standardConnA : Connection :=
  { readyState := 1,
    user := { userId := "user-1", role := "user", authorizedCameras := [] },
    subscriptions := { cameras := ["A"], filters := noClientFilters } }

lemma rawDistanceLt_iff (a b m : ℚ) :
    rawDistanceLt a b m = true ↔
      Real.sqrt ((a : ℝ) ^ 2 + (b : ℝ) ^ 2) < (m : ℝ) := by
  unfold rawDistanceLt
  simp only [decide_eq_true_eq]
  have hs := Real.sqrt_nonneg ((a : ℝ) ^ 2 + (b : ℝ) ^ 2)
  constructor
  · rintro ⟨hm, hlt⟩
    have hm' : (0 : ℝ) < (m : ℝ) := by exact_mod_cast hm
    have hlt' : (a : ℝ) ^ 2 + (b : ℝ) ^ 2 < (m : ℝ) ^ 2 := by exact_mod_cast hlt
    exact (Real.sqrt_lt' hm').mpr hlt'
  · intro h
    have hm' : (0 : ℝ) < (m : ℝ) := lt_of_le_of_lt hs h
    have hlt' := (Real.sqrt_lt' hm').mp h
    exact ⟨by exact_mod_cast hm', by exact_mod_cast hlt'⟩

lemma displacementPercentLt_iff (a b m : ℚ) :
    displacementPercentLt (some a) (some b) m = true ↔
      Real.sqrt ((a : ℝ) ^ 2 + (b : ℝ) ^ 2) / 1414.21 * 100 < (m : ℝ) := by
  unfold displacementPercentLt
  simp only [decide_eq_true_eq]
  have hs := Real.sqrt_nonneg ((a : ℝ) ^ 2 + (b : ℝ) ^ 2)
  have hscale : Real.sqrt ((a : ℝ) ^ 2 + (b : ℝ) ^ 2) / 1414.21 * 100 =
      Real.sqrt ((a : ℝ) ^ 2 + (b : ℝ) ^ 2) * (10000 / 141421) := by
    norm_num
    ring
  rw [hscale]
  have hc : (0 : ℝ) < 10000 / 141421 := by norm_num
  constructor
  · rintro ⟨hm, hlt⟩
    have hm' : (0 : ℝ) < (m : ℝ) := by exact_mod_cast hm
    have hlt' : ((a : ℝ) ^ 2 + (b : ℝ) ^ 2) * 10 ^ 8 < (m : ℝ) ^ 2 * 141421 ^ 2 := by
      exact_mod_cast hlt
    have hy : (0 : ℝ) < (m : ℝ) / (10000 / 141421) := div_pos hm' hc
    have hsq : Real.sqrt ((a : ℝ) ^ 2 + (b : ℝ) ^ 2) < (m : ℝ) / (10000 / 141421) := by
      rw [Real.sqrt_lt' hy, div_pow, lt_div_iff₀ (by positivity)]
      nlinarith [hlt']
    calc Real.sqrt ((a : ℝ) ^ 2 + (b : ℝ) ^ 2) * (10000 / 141421)
        < ((m : ℝ) / (10000 / 141421)) * (10000 / 141421) :=
          mul_lt_mul_of_pos_right hsq hc
      _ = (m : ℝ) := by field_simp
  · intro h
    have hm' : (0 : ℝ) < (m : ℝ) := by
      have hnn : (0 : ℝ) ≤ Real.sqrt ((a : ℝ) ^ 2 + (b : ℝ) ^ 2) * (10000 / 141421) := by
        positivity
      linarith
    refine ⟨by exact_mod_cast hm', ?_⟩
    have hsq : Real.sqrt ((a : ℝ) ^ 2 + (b : ℝ) ^ 2) < (m : ℝ) / (10000 / 141421) := by
      rw [lt_div_iff₀ hc]
      exact h
    have hy : (0 : ℝ) < (m : ℝ) / (10000 / 141421) := div_pos hm' hc
    have hlt' := (Real.sqrt_lt' hy).mp hsq
    rw [div_pow, lt_div_iff₀ (by positivity)] at hlt'
    have hfin : ((a : ℝ) ^ 2 + (b : ℝ) ^ 2) * 10 ^ 8 < (m : ℝ) ^ 2 * 141421 ^ 2 := by
      nlinarith [hlt']
    exact_mod_cast hfin

lemma rawDistanceLt_eq_false_iff (a b m : ℚ) :
    rawDistanceLt a b m = false ↔
      (m : ℝ) ≤ Real.sqrt ((a : ℝ) ^ 2 + (b : ℝ) ^ 2) := by
  rw [← Bool.not_eq_true, rawDistanceLt_iff, not_lt]

lemma shouldSavePath_eq_true_iff (p : PathData) (filters : Option CameraFilters) :
    shouldSavePath p filters = true ↔
      ((((filters.bind (fun f => f.objectTypes)).getD defaultObjectTypes).length > 0 →
         p.cls ∈ (filters.bind (fun f => f.objectTypes)).getD defaultObjectTypes) ∧
       jsLt p.age ((filters.bind (fun f => f.minAge)).getD 2) = false ∧
       displacementPercentLt p.dx p.dy
         ((filters.bind (fun f => f.minDistance)).getD 20) = false) := by
  unfold shouldSavePath
  simp only []
  split_ifs with h1 h2 h3 <;>
    simp_all [List.elem_iff, List.contains]

lemma handleSubscribeCameras_mem (db : List Camera) (user : Identity)
    (requestedCameras : List String) (s : String)
    (hs : s ∈ handleSubscribeCameras db user requestedCameras) :
    (requestedCameras ≠ [] → s ∈ requestedCameras) ∧
    (∃ c ∈ db, c.serialNumber = s ∧ c.enabled = true ∧
      (user.role = "admin" ∨ c.mongoId ∈ user.authorizedCameras)) := by
  constructor
  · intro hne
    unfold handleSubscribeCameras at hs
    rw [if_neg (fun h => hne (List.length_eq_zero.mp h))] at hs
    by_cases hrole : user.role = "admin"
    · rw [if_pos hrole] at hs
      simp only [List.mem_map, List.mem_filter, Bool.and_eq_true, List.elem_iff,
        List.contains] at hs
      obtain ⟨c, ⟨hc, hreq, hen⟩, rfl⟩ := hs
      exact hreq
    · rw [if_neg hrole] at hs
      simp only [List.mem_map, List.mem_filter, Bool.and_eq_true, List.elem_iff,
        List.contains] at hs
      obtain ⟨c, ⟨hc, ⟨hauth, hreq⟩, hen⟩, rfl⟩ := hs
      exact hreq
  · unfold handleSubscribeCameras at hs
    by_cases hlen : requestedCameras.length = 0 <;>
      [rw [if_pos hlen] at hs; rw [if_neg hlen] at hs] <;>
      by_cases hrole : user.role = "admin" <;>
      [rw [if_pos hrole] at hs; rw [if_neg hrole] at hs;
       rw [if_pos hrole] at hs; rw [if_neg hrole] at hs] <;>
      simp only [List.mem_map, List.mem_filter, Bool.and_eq_true, List.elem_iff,
        List.contains] at hs
    · obtain ⟨c, ⟨hc, hen⟩, rfl⟩ := hs
      exact ⟨c, hc, rfl, hen, Or.inl hrole⟩
    · obtain ⟨c, ⟨hc, hauth, hen⟩, rfl⟩ := hs
      exact ⟨c, hc, rfl, hen, Or.inr hauth⟩
    · obtain ⟨c, ⟨hc, hreq, hen⟩, rfl⟩ := hs
      exact ⟨c, hc, rfl, hen, Or.inl hrole⟩
    · obtain ⟨c, ⟨hc, ⟨hauth, hreq⟩, hen⟩, rfl⟩ := hs
      exact ⟨c, hc, rfl, hen, Or.inr hauth⟩

/-- C1 (amended): for every path event with its kinematic fields present and
every device filter whose effective allowed-class list (the configured list,
or the default list when not configured) is non-empty, the Ingestion Filter
accepts the event iff the class is in that list, the age is at least the
minimum age, and the Euclidean displacement `√(dx²+dy²)` expressed as a
percentage of the 1414.21 diagonal is at least the minimum-distance
percentage; the conjunction form shows the short-circuit order does not
affect the boolean result.  (The amendment: with a configured-but-empty
class list the class condition is waived rather than tested, see the
counterexample.) -/
theorem shouldSavePath_accept_iff (filters : Option CameraFilters) (p : PathData)
    (ag a b : ℚ) (hage : p.age = some ag) (hdx : p.dx = some a) (hdy : p.dy = some b)
    (hne : (filters.bind (fun f => f.objectTypes)).getD defaultObjectTypes ≠ []) :
    shouldSavePath p filters = true ↔
      (p.cls ∈ (filters.bind (fun f => f.objectTypes)).getD defaultObjectTypes ∧
       (filters.bind (fun f => f.minAge)).getD 2 ≤ ag ∧
       (((filters.bind (fun f => f.minDistance)).getD 20 : ℚ) : ℝ) ≤
         Real.sqrt ((a : ℝ) ^ 2 + (b : ℝ) ^ 2) / 1414.21 * 100) := by
  rw [shouldSavePath_eq_true_iff, hage, hdx, hdy]
  have hlen : ((filters.bind (fun f => f.objectTypes)).getD defaultObjectTypes).length > 0 :=
    List.length_pos.mpr hne
  constructor
  · rintro ⟨h1, h2, h3⟩
    refine ⟨h1 hlen, ?_, ?_⟩
    · simp only [jsLt, decide_eq_false_iff_not] at h2
      exact not_lt.mp h2
    · have h4 : ¬(displacementPercentLt (some a) (some b)
          ((filters.bind (fun f => f.minDistance)).getD 20) = true) := by
        simp [h3]
      rw [displacementPercentLt_iff] at h4
      exact not_lt.mp h4
  · rintro ⟨h1, h2, h3⟩
    refine ⟨fun _ => h1, ?_, ?_⟩
    · simp only [jsLt, decide_eq_false_iff_not]
      exact not_lt.mpr h2
    · have h4 : ¬(displacementPercentLt (some a) (some b)
          ((filters.bind (fun f => f.minDistance)).getD 20) = true) := by
        rw [displacementPercentLt_iff]
        exact not_lt.mpr h3
      simpa using h4

/-- C1 witness: the spec scenario — filter
`{classes:["Human"], minAge:2, minDistance:20}` accepts the event
`{class:"Human", age:5, dx:300, dy:300}` (displacement ≈ 30% of the
diagonal). -/
theorem shouldSavePath_accept_iff_witness :
    shouldSavePath scenarioEvent (some scenarioFilters) = true := by
  apply (shouldSavePath_accept_iff (some scenarioFilters) scenarioEvent 5 300 300
    rfl rfl rfl (by decide)).mpr
  refine ⟨by decide, by norm_num [scenarioFilters], ?_⟩
  have h424 : (424 : ℝ) ≤ Real.sqrt (((300 : ℚ) : ℝ) ^ 2 + ((300 : ℚ) : ℝ) ^ 2) := by
    rw [Real.le_sqrt (by norm_num) (by norm_num)]
    push_cast
    norm_num
  push_cast at h424
  simp only [scenarioFilters, Option.some_bind, Option.getD_some]
  push_cast
  calc (20 : ℝ) ≤ 424 / 1414.21 * 100 := by norm_num
    _ ≤ Real.sqrt ((300 : ℝ) ^ 2 + (300 : ℝ) ^ 2) / 1414.21 * 100 := by gcongr

/-- C1 counterexample: with a configured-but-empty allowed-class list the
Ingestion Filter accepts an event whose class belongs to no list at all,
so "accept iff the class is in the allowed-class list (and the other two
conditions hold)" fails as stated for that filter. -/
theorem shouldSavePath_emptyClassList_cex :
    shouldSavePath { scenarioEvent with cls := "Alien" } (some emptyClassFilters) = true ∧
    "Alien" ∉ (emptyClassFilters.objectTypes.getD defaultObjectTypes) := by
  constructor
  · norm_num [shouldSavePath, scenarioEvent, emptyClassFilters, jsLt, displacementPercentLt]
  · decide

/-- C2 (amended): when the device's allowed-class list is configured as an
explicitly empty list the Ingestion Filter imposes no class restriction at
all (the event's class is irrelevant to the decision), and when it is not
configured the documented default class list is used. -/
theorem shouldSavePath_classList_semantics (p : PathData) (f : CameraFilters) (c : String) :
    (f.objectTypes = some [] →
       shouldSavePath { p with cls := c } (some f) = shouldSavePath p (some f)) ∧
    (f.objectTypes = none →
       shouldSavePath p (some f) =
         shouldSavePath p (some { f with objectTypes := some defaultObjectTypes })) := by
  constructor
  · intro h
    simp [shouldSavePath, h]
  · intro h
    simp [shouldSavePath, h]

/-- C2 witness: with the empty-configured class list, replacing the event
class by "Alien" does not change the ingestion decision. -/
theorem shouldSavePath_classList_semantics_witness :
    shouldSavePath { scenarioEvent with cls := "Alien" } (some emptyClassFilters) =
      shouldSavePath scenarioEvent (some emptyClassFilters) :=
  (shouldSavePath_classList_semantics scenarioEvent emptyClassFilters "Alien").1 rfl

/-- C2 counterexample: a filter whose allowed-class list is configured and
empty accepts a `Car` event (meeting the other thresholds) instead of
rejecting every event as the claim states. -/
theorem shouldSavePath_emptyConfigured_accepts_cex :
    emptyClassFilters.objectTypes = some [] ∧
    shouldSavePath { scenarioEvent with cls := "Car" } (some emptyClassFilters) = true := by
  refine ⟨rfl, ?_⟩
  norm_num [shouldSavePath, scenarioEvent, emptyClassFilters, jsLt, displacementPercentLt]

/-- C3: every serial number returned by the subscribe authorization is in
the requested set (when one was given), belongs to an enabled camera of
the directory that the identity is authorized for (any enabled camera for
the elevated role, only cameras in the authorized-id list for the standard
role), and the operation is idempotent: with an unchanged directory the
same inputs give the same result. -/
theorem handleSubscribeCameras_sound (db : List Camera) (user : Identity)
    (requestedCameras : List String) (s : String)
    (hs : s ∈ handleSubscribeCameras db user requestedCameras) :
    (requestedCameras ≠ [] → s ∈ requestedCameras) ∧
    (∃ c ∈ db, c.serialNumber = s ∧ c.enabled = true ∧
      (user.role = "admin" ∨ c.mongoId ∈ user.authorizedCameras)) ∧
    (∀ db2, db2 = db →
      handleSubscribeCameras db2 user requestedCameras =
        handleSubscribeCameras db user requestedCameras) :=
  ⟨(handleSubscribeCameras_mem db user requestedCameras s hs).1,
   (handleSubscribeCameras_mem db user requestedCameras s hs).2,
   fun db2 h => by rw [h]⟩

/-- C3 witness: in the three-camera directory, the standard identity
authorized for A and B requesting `["A","C"]` gets A with all soundness
properties holding. -/
theorem handleSubscribeCameras_sound_witness :
    (["A", "C"] ≠ ([] : List String) → "A" ∈ ["A", "C"]) ∧
    (∃ c ∈ directoryABC, c.serialNumber = "A" ∧ c.enabled = true ∧
      (standardUserAB.role = "admin" ∨ c.mongoId ∈ standardUserAB.authorizedCameras)) ∧
    (∀ db2, db2 = directoryABC →
      handleSubscribeCameras db2 standardUserAB ["A", "C"] =
        handleSubscribeCameras directoryABC standardUserAB ["A", "C"]) :=
  handleSubscribeCameras_sound directoryABC standardUserAB ["A", "C"] "A" (by decide)

/-- C4: when some requested camera is dropped by authorization (and the
directory's serial numbers are distinct, as the unique index guarantees),
the subscribe operation still succeeds: it sends `subscribed` with the
reduced authorized set followed by a distinct `error` frame with code
`UNAUTHORIZED` whose text lists exactly the requested cameras not in the
authorized set, and the stored subscription is the reduced set. -/
theorem handleSubscribePartialAuth (db : List Camera) (user : Identity)
    (requestedCameras : List String) (filters : ClientFilters) (r : String)
    (hnodup : (db.map (fun c => c.serialNumber)).Nodup)
    (hr : r ∈ requestedCameras)
    (hdrop : r ∉ handleSubscribeCameras db user requestedCameras) :
    (handleSubscribe db user requestedCameras filters).messages =
      [WsOutMessage.subscribed (handleSubscribeCameras db user requestedCameras),
       WsOutMessage.errorMsg
         ("Some cameras were not authorized: " ++
           String.intercalate ", "
             (requestedCameras.filter
               (fun c => !((handleSubscribeCameras db user requestedCameras).contains c))))
         "UNAUTHORIZED"] ∧
    (∀ x, x ∈ requestedCameras.filter
        (fun c => !((handleSubscribeCameras db user requestedCameras).contains c)) ↔
      (x ∈ requestedCameras ∧ x ∉ handleSubscribeCameras db user requestedCameras)) ∧
    (handleSubscribe db user requestedCameras filters).newSubscription =
      { cameras := handleSubscribeCameras db user requestedCameras, filters := filters } := by
  have hne : requestedCameras ≠ [] := List.ne_nil_of_mem hr
  have hlen0 : 0 < requestedCameras.length := List.length_pos.mpr hne
  have hauthnodup : (handleSubscribeCameras db user requestedCameras).Nodup := by
    unfold handleSubscribeCameras
    split_ifs <;> exact ((List.filter_sublist db).map (fun c => c.serialNumber)).nodup hnodup
  have hauthsub : handleSubscribeCameras db user requestedCameras ⊆ requestedCameras := by
    intro x hx
    exact (handleSubscribeCameras_mem db user requestedCameras x hx).1 hne
  have hlt : (handleSubscribeCameras db user requestedCameras).length <
      requestedCameras.length := by
    have h1 : handleSubscribeCameras db user requestedCameras ⊆
        requestedCameras.filter (fun a => a ≠ r) := by
      intro x hx
      rw [List.mem_filter]
      refine ⟨hauthsub hx, ?_⟩
      simp only [ne_eq, decide_not, Bool.not_eq_eq_eq_not, Bool.not_true,
        decide_eq_false_iff_not]
      rintro rfl
      exact hdrop hx
    have h2 := (hauthnodup.subperm h1).length_le
    have h3 : (requestedCameras.filter (fun a => a ≠ r)).length <
        requestedCameras.length := by
      rw [List.length_filter_lt_length_iff_exists]
      exact ⟨r, hr, by simp⟩
    omega
  refine ⟨?_, ?_, rfl⟩
  · unfold handleSubscribe
    simp [hlen0, hlt]
  · intro x
    rw [List.mem_filter]
    simp [List.contains, List.elem_iff]

/-- C4 witness: the spec scenario — standard identity authorized for A and
B requesting `["A","B","C"]` with C enabled but not authorized gets
`subscribed` with the reduced set plus the `UNAUTHORIZED` error naming the
dropped camera, and the subscription is the reduced set. -/
theorem handleSubscribePartialAuth_witness :
    (handleSubscribe directoryABC standardUserAB ["A", "B", "C"] noClientFilters).messages =
      [WsOutMessage.subscribed
         (handleSubscribeCameras directoryABC standardUserAB ["A", "B", "C"]),
       WsOutMessage.errorMsg
         ("Some cameras were not authorized: " ++
           String.intercalate ", "
             (["A", "B", "C"].filter
               (fun c => !((handleSubscribeCameras directoryABC standardUserAB
                 ["A", "B", "C"]).contains c))))
         "UNAUTHORIZED"] ∧
    (∀ x, x ∈ ["A", "B", "C"].filter
        (fun c => !((handleSubscribeCameras directoryABC standardUserAB
          ["A", "B", "C"]).contains c)) ↔
      (x ∈ ["A", "B", "C"] ∧
        x ∉ handleSubscribeCameras directoryABC standardUserAB ["A", "B", "C"])) ∧
    (handleSubscribe directoryABC standardUserAB ["A", "B", "C"]
        noClientFilters).newSubscription =
      { cameras := handleSubscribeCameras directoryABC standardUserAB ["A", "B", "C"],
        filters := noClientFilters } :=
  handleSubscribePartialAuth directoryABC standardUserAB ["A", "B", "C"]
    noClientFilters "C" (by decide) (by decide) (by decide)

/-- C5 (amended): the `activeStreams` map holds at most one registered
video session per connection, and a `request_video` that arrives when the
previous session's stream is registered (its fetch completed) destroys
that stream strictly before the new session's `video_metadata` is sent.
(The amendment: when the previous request's recording-server fetch is
still pending it is not registered, is not torn down, and both sessions
can end up attached — see the counterexample.) -/
theorem videoSession_teardown_before_metadata (st : VideoConnState) (t sid : Nat)
    (hactive : st.activeStream = some t) (hne : sid ≠ t) :
    (handleRequestVideoSeq sid st).log =
      st.log ++ [VideoEvent.destroyedStream t, VideoEvent.metadataSent sid] ∧
    t ∉ (handleRequestVideoSeq sid st).attachedStreams ∧
    (handleRequestVideoSeq sid st).activeStream = some sid := by
  unfold handleRequestVideoSeq requestVideoArrive requestVideoFetchDone handleCloseVideo
  rw [hactive]
  simp only [List.contains, List.elem_iff]
  simp [List.mem_filter, hne, Ne.symm hne]

/-- C5 witness: after session 1 completes, a second request destroys
stream 1 before sending metadata for session 2, and session 2 becomes the
only registered session. -/
theorem videoSession_teardown_witness :
    (handleRequestVideoSeq 2 (handleRequestVideoSeq 1 initVideoConn)).log =
      (handleRequestVideoSeq 1 initVideoConn).log ++
        [VideoEvent.destroyedStream 1, VideoEvent.metadataSent 2] ∧
    1 ∉ (handleRequestVideoSeq 2 (handleRequestVideoSeq 1 initVideoConn)).attachedStreams ∧
    (handleRequestVideoSeq 2 (handleRequestVideoSeq 1 initVideoConn)).activeStream = some 2 :=
  videoSession_teardown_before_metadata (handleRequestVideoSeq 1 initVideoConn) 1 2
    (by decide) (by decide)

/-- C5 counterexample: when the second `request_video` arrives while the
first request's `getVideoClip` is still pending (so the first session is
not yet in `activeStreams`), no teardown happens; after both fetches
resolve, both streams are attached to the connection and metadata for
session 2 was sent without stream 1 ever being destroyed — refuting
"at most one live session" and "first torn down before second's
metadata" for this interleaving. -/
theorem videoSession_race_cex :
    (requestVideoFetchDone 2 (requestVideoFetchDone 1
      (requestVideoArrive 2 (requestVideoArrive 1 initVideoConn)))).attachedStreams =
      [1, 2] ∧
    VideoEvent.metadataSent 2 ∈ (requestVideoFetchDone 2 (requestVideoFetchDone 1
      (requestVideoArrive 2 (requestVideoArrive 1 initVideoConn)))).log ∧
    VideoEvent.destroyedStream 1 ∉ (requestVideoFetchDone 2 (requestVideoFetchDone 1
      (requestVideoArrive 2 (requestVideoArrive 1 initVideoConn)))).log := by
  decide

/-- C6 (amended): the retrieval window is
`start = timestamp − (age + preTime)·1000` and
`end = timestamp + postTime·1000` in milliseconds, with `preTime` and
`postTime` defaulting from the system configuration and `age` defaulting
to 0 (so `preTime=5, postTime=10, age=3` gives `start=T−8s, end=T+10s`);
a recording-server fetch timeout produces the adapter message
`REQUEST_TIMEOUT`, which the video handler maps to client error code
`UNKNOWN_ERROR` — not `RECORDING_SERVER_ERROR`, which is reserved for
HTTP 5xx responses — and the disposable on-disk artifact was never
created on that path. -/
theorem videoWindow_and_timeout_mapping (T : ℚ) (cfg : PlaybackConfig) :
    computeVideoWindow T (some 5) (some 10) (some 3) cfg = (T - 8000, T + 10000) ∧
    computeVideoWindow T none none none cfg =
      (T - cfg.preTime * 1000, T + cfg.postTime * 1000) ∧
    (∀ e : AxiosFailure, e.status = none → e.code = some "ETIMEDOUT" →
      mapVideoXFailure e = "REQUEST_TIMEOUT" ∧
      mapVideoErrorCode (mapVideoXFailure e) = "UNKNOWN_ERROR" ∧
      (getVideoFromVideoX (Except.error e)).2 = false) ∧
    (∀ e : AxiosFailure, ∀ s, e.status = some s → s ≥ 500 →
      mapVideoErrorCode (mapVideoXFailure e) = "RECORDING_SERVER_ERROR") := by
  refine ⟨?_, ?_, ?_, ?_⟩
  · unfold computeVideoWindow
    simp only [Option.getD_some]
    norm_num
  · unfold computeVideoWindow
    simp only [Option.getD_none]
    norm_num
  · intro e hst hcode
    have hmsg : mapVideoXFailure e = "REQUEST_TIMEOUT" := by
      unfold mapVideoXFailure
      rw [hst, hcode]
      rfl
    refine ⟨hmsg, ?_, rfl⟩
    rw [hmsg]
    decide
  · intro e s hst hge
    have h404 : ¬(s = 404) := by omega
    have hmsg : mapVideoXFailure e = "RECORDING_SERVER_ERROR" := by
      unfold mapVideoXFailure
      rw [hst]
      simp [h404, hge]
    rw [hmsg]
    decide

/-- C6 witness: the window computation at timestamp 0 with
`preTime=5, postTime=10, age=3`. -/
theorem videoWindow_witness :
    computeVideoWindow 0 (some 5) (some 10) (some 3) { preTime := 5, postTime := 5 } =
      (0 - 8000, 0 + 10000) :=
  (videoWindow_and_timeout_mapping 0 { preTime := 5, postTime := 5 }).1

/-- C6 counterexample: a fetch timeout (axios `ETIMEDOUT`, no HTTP
response) reaches the client as `UNKNOWN_ERROR`, not the
`RECORDING_SERVER_ERROR` the claim states. -/
theorem videoTimeout_code_cex :
    mapVideoErrorCode (mapVideoXFailure
      { status := none, code := some "ETIMEDOUT",
        message := "timeout of 60000ms exceeded" }) = "UNKNOWN_ERROR" ∧
    ("UNKNOWN_ERROR" : String) ≠ "RECORDING_SERVER_ERROR" := by
  decide

/-- C7 (amended): for two live connections with identical subscription
state whose camera set is non-empty, the Broadcast Dispatcher makes the
same accept/reject decision for every event.  (The amendment: with an
empty camera set the decision additionally consults the connection's
identity — role and authorized-camera list — so it is not a pure function
of the subscription alone; see the counterexample.) -/
theorem shouldSendToClient_subscription_pure (c1 c2 : Connection) (e : PathData)
    (h1 : c1.readyState = 1) (h2 : c2.readyState = 1)
    (hsub : c1.subscriptions = c2.subscriptions)
    (hne : c1.subscriptions.cameras ≠ []) :
    shouldSendToClient c1 e = shouldSendToClient c2 e := by
  unfold shouldSendToClient
  rw [h1, h2, hsub]
  have hlen : c2.subscriptions.cameras.length > 0 :=
    List.length_pos.mpr (hsub ▸ hne)
  simp [hlen]

/-- C7 witness: an elevated and a standard connection both subscribed to
camera A with no client filters receive the same decision for the
scenario event. -/
theorem shouldSendToClient_subscription_pure_witness :
    shouldSendToClient adminConnA scenarioEvent =
      shouldSendToClient standardConnA scenarioEvent :=
  shouldSendToClient_subscription_pure adminConnA standardConnA scenarioEvent
    rfl rfl rfl (by decide)

/-- C7 counterexample: two live connections with identical subscription
state (empty camera set, no filters) get different decisions for the same
event — the elevated one receives it, the standard one with an empty
authorized list does not — so the decision is not a pure function of
(event, subscription). -/
theorem shouldSendToClient_identity_dependent_cex :
    adminConn.subscriptions = standardConn.subscriptions ∧
    adminConn.readyState = 1 ∧ standardConn.readyState = 1 ∧
    shouldSendToClient adminConn scenarioEvent = true ∧
    shouldSendToClient standardConn scenarioEvent = false := by
  refine ⟨rfl, rfl, rfl, ?_, ?_⟩ <;>
    simp [shouldSendToClient, adminConn, standardConn, scenarioEvent,
      isAuthorizedForEvent, matchesFilters, noClientFilters]

/-- C8: the Broadcast Dispatcher's client-side filter accepts an event
(with all kinematic fields present and non-zero thresholds as stated) iff
the class is in the non-empty allow-list, the age and dwell meet their
minima, and the raw-pixel Euclidean distance `√(dx²+dy²)` — with no
division by the 1414.21 diagonal — meets the minimum distance; on the
spec scenario event with threshold 100 the client-side filter accepts
while the Ingestion Filter's percentage-based test rejects, witnessing
that the two tests are genuinely different. -/
theorem matchesFilters_rawDistance (p : PathData) (cs : List String)
    (ma md mw ag a b dw : ℚ) (hcs : cs ≠ [])
    (hage : p.age = some ag) (hdx : p.dx = some a) (hdy : p.dy = some b)
    (hdwell : p.dwell = some dw) :
    (matchesFilters p
        { classes := some cs, minAge := some ma,
          minDistance := some md, minDwell := some mw } = true ↔
      (p.cls ∈ cs ∧ (ag ≠ 0 ∧ ma ≤ ag) ∧
       (a ≠ 0 ∧ b ≠ 0 ∧ (md : ℝ) ≤ Real.sqrt ((a : ℝ) ^ 2 + (b : ℝ) ^ 2)) ∧
       (dw ≠ 0 ∧ mw ≤ dw))) ∧
    matchesFilters scenarioEvent distanceOnlyFilters = true ∧
    shouldSavePath scenarioEvent
      (some { objectTypes := some ["Human"], minAge := some 2,
              minDistance := some 100 }) = false := by
  refine ⟨?_, ?_, ?_⟩
  · have hlen : cs.length > 0 := List.length_pos.mpr hcs
    have c1 : ((if cs.length > 0 then cs.contains p.cls else true) = true) ↔
        p.cls ∈ cs := by
      simp [hlen, List.contains, List.elem_iff]
    have c2 : ((!(jsFalsy p.age || jsLt p.age ma)) = true) ↔ (ag ≠ 0 ∧ ma ≤ ag) := by
      rw [hage]
      simp [jsFalsy, jsLt, not_lt]
    have c4 : ((!(jsFalsy p.dwell || jsLt p.dwell mw)) = true) ↔ (dw ≠ 0 ∧ mw ≤ dw) := by
      rw [hdwell]
      simp [jsFalsy, jsLt, not_lt]
    have c3 : ((if a = 0 then false else if b = 0 then false
        else !(rawDistanceLt a b md)) = true) ↔
        (a ≠ 0 ∧ b ≠ 0 ∧ (md : ℝ) ≤ Real.sqrt ((a : ℝ) ^ 2 + (b : ℝ) ^ 2)) := by
      by_cases ha : a = 0
      · simp [ha]
      by_cases hb : b = 0
      · simp [ha, hb]
      simp [ha, hb, Bool.not_eq_true', rawDistanceLt_eq_false_iff]
    unfold matchesFilters
    rw [hdx, hdy]
    simp only [Bool.and_eq_true]
    rw [c1, c2, c3, c4]
    tauto
  · norm_num [matchesFilters, scenarioEvent, distanceOnlyFilters, rawDistanceLt]
  · norm_num [shouldSavePath, scenarioEvent, jsLt, displacementPercentLt]

/-- C8 witness: the scenario event passes the client-side filter
`{classes:["Human"], minAge:2, minDistance:100, minDwell:1}` because its
raw-pixel distance `√(300²+300²) ≈ 424` meets the threshold 100. -/
theorem matchesFilters_rawDistance_witness :
    matchesFilters scenarioEvent
      { classes := some ["Human"], minAge := some 2, minDistance := some 100,
        minDwell := some 1 } = true := by
  apply ((matchesFilters_rawDistance scenarioEvent ["Human"] 2 100 1 5 300 300 3
    (by decide) rfl rfl rfl rfl).1).mpr
  have hsq : ((100 : ℚ) : ℝ) ≤
      Real.sqrt (((300 : ℚ) : ℝ) ^ 2 + ((300 : ℚ) : ℝ) ^ 2) := by
    rw [Real.le_sqrt (by norm_num) (by positivity)]
    push_cast
    norm_num
  exact ⟨by decide, ⟨by norm_num, by norm_num⟩,
    ⟨by norm_num, by norm_num, hsq⟩, by norm_num, by norm_num⟩

/-- C9: the upgrade handler closes every failed-authentication handshake
with the same `HTTP/1.1 401 Unauthorized` response — evaluated at the
failing input of a valid token for a disabled account, the response is
identical to the invalid-token response, so the disabled-account failure
is not distinguished by a distinct code (the API documentation promises
4001 for invalid token versus 4003 for a disabled account). -/
theorem wsAuth_disabled_same_as_invalid :
    upgradeResponse "/ws/paths" (authenticateWebSocket (some "token") none none) =
      UpgradeResponse.unauthorized401 ∧
    upgradeResponse "/ws/paths"
      (authenticateWebSocket (some "token") (some { payloadId := "u-1" })
        (some { recordId := "u-1", role := "user", enabled := false })) =
      UpgradeResponse.unauthorized401 ∧
    authenticateWebSocket (some "token") (some { payloadId := "u-1" })
      (some { recordId := "u-1", role := "user", enabled := false }) =
      Except.error "Account is disabled" := by
  refine ⟨rfl, rfl, rfl⟩

/-- C10: in the client-side broadcast filter, a zero or absent numeric
event field fails its threshold test whenever that threshold is set,
regardless of the threshold value: with `minDistance` set, `dx` or `dy`
equal to 0 or absent rejects the event even if `√(dx²+dy²)` meets the
threshold; with `minAge` (resp. `minDwell`) set, an age (resp. dwell) of
0 or absent rejects the event even when the threshold is 0. -/
theorem matchesFilters_falsy_thresholds (p : PathData) (f : ClientFilters) :
    (f.minDistance ≠ none →
      (p.dx = some 0 ∨ p.dx = none ∨ p.dy = some 0 ∨ p.dy = none) →
      matchesFilters p f = false) ∧
    (f.minAge ≠ none → (p.age = some 0 ∨ p.age = none) →
      matchesFilters p f = false) ∧
    (f.minDwell ≠ none → (p.dwell = some 0 ∨ p.dwell = none) →
      matchesFilters p f = false) := by
  refine ⟨?_, ?_, ?_⟩
  · intro hset hfalsy
    obtain ⟨m, hm⟩ := Option.ne_none_iff_exists'.mp hset
    unfold matchesFilters
    rw [hm]
    rcases hfalsy with h | h | h | h
    · rw [h]
      cases p.dy <;> simp
    · rw [h]
      simp
    · rw [h]
      cases hx : p.dx with
      | none => simp
      | some a =>
        by_cases ha : a = 0 <;> simp [ha]
    · rw [h]
      cases hx : p.dx with
      | none => simp
      | some a =>
        by_cases ha : a = 0 <;> simp [ha]
  · intro hset hfalsy
    obtain ⟨m, hm⟩ := Option.ne_none_iff_exists'.mp hset
    unfold matchesFilters
    rw [hm]
    rcases hfalsy with h | h <;> rw [h] <;> simp [jsFalsy]
  · intro hset hfalsy
    obtain ⟨m, hm⟩ := Option.ne_none_iff_exists'.mp hset
    unfold matchesFilters
    rw [hm]
    rcases hfalsy with h | h <;> rw [h] <;> simp [jsFalsy]

/-- C10 witness: the claim's example — `dx=0, dy=500` with
`minDistance=100` is rejected although `√(0²+500²) = 500` meets the
threshold. -/
theorem matchesFilters_falsy_witness :
    matchesFilters { scenarioEvent with dx := some 0, dy := some 500 }
      distanceOnlyFilters = false :=
  (matchesFilters_falsy_thresholds
    { scenarioEvent with dx := some 0, dy := some 500 } distanceOnlyFilters).1
    (by decide) (Or.inl rfl)

end DataQ
